import Mathlib

/-!
Verification development for the Binary-bot real-time signal engine.

The numeric type of the embedding is `ℚ` (the source computes with IEEE
doubles; all constants appearing in the program are decimal literals, and
none of the verified claims depends on rounding of binary floating point).
Fallible operations return `Except`.  `Math.round` is embedded as
`jsRound` below.  The `reason` diagnostic string attached to votes is not
modelled: it is built by string interpolation of numeric values, and no
program decision ever reads it.

The prediction engine (`predictWithFormingCandle`), the indicator engine
and the psychology engine are separate modules whose internals are not
needed by any claim below; `generateSignal` is therefore parameterised by
the prediction function, and all theorems quantify over it.
-/

namespace BinaryBot

/-- JavaScript `Math.round` on a rational: round half away from zero is
`Math.round`'s behaviour only for negative halves; `Math.round` rounds
half towards +infinity, i.e. `Math.round x = ⌊x + 1/2⌋`. -/
def jsRound (q : ℚ) : ℤ := ⌊q + 1/2⌋

/-- Vote direction, from `shared/schema` (`"UP" | "DOWN" | "NEUTRAL"`). -/
inductive VoteDir where
  | UP | DOWN | NEUTRAL
deriving DecidableEq

/-- Final signal direction (`"CALL" | "PUT" | "NO_TRADE"`). -/
inductive Direction where
  | CALL | PUT | NO_TRADE
deriving DecidableEq

/-- A weighted directional vote.  The `reason` diagnostic string of the
source is omitted (never read by the program). -/
structure Vote where
  indicator : String
  direction : VoteDir
  weight : ℚ
deriving DecidableEq

/-- `{macd, signal, histogram}` triple. -/
structure MACDValue where
  macd : ℚ
  signal : ℚ
  histogram : ℚ
deriving DecidableEq

/-- Stochastic `{k, d}` pair. -/
structure StochasticValue where
  k : ℚ
  d : ℚ
deriving DecidableEq

/-- Bollinger `{upper, middle, lower}` triple. -/
structure BollingerValue where
  upper : ℚ
  middle : ℚ
  lower : ℚ
deriving DecidableEq

/-- SuperTrend direction (`"up" | "down"`). -/
inductive STDir where
  | up | down
deriving DecidableEq

/-- SuperTrend `{value, direction}`. -/
structure SuperTrendValue where
  value : ℚ
  direction : STDir
deriving DecidableEq

/-- The fields of the `IndicatorValues` record that the signal engine
reads.  Every field is optional (absent when history is insufficient);
the remaining indicator fields of the source record are never read by
`signalEngine.ts` and are not modelled. -/
structure IndicatorValues where
  ema5 : Option ℚ := none
  ema9 : Option ℚ := none
  ema12 : Option ℚ := none
  ema21 : Option ℚ := none
  ema50 : Option ℚ := none
  sma20 : Option ℚ := none
  sma50 : Option ℚ := none
  sma200 : Option ℚ := none
  macd : Option MACDValue := none
  rsi14 : Option ℚ := none
  stochastic : Option StochasticValue := none
  bollingerBands : Option BollingerValue := none
  superTrend : Option SuperTrendValue := none
  psar : Option ℚ := none
  adx : Option ℚ := none
  cci : Option ℚ := none
  williamsR : Option ℚ := none
  hullMA : Option ℚ := none
  meanReversionZ : Option ℚ := none
deriving DecidableEq

/-- Candlestick pattern type (`"bullish" | "bearish" | "neutral"`). -/
inductive PatternType where
  | bullish | bearish | neutral
deriving DecidableEq

/-- `CandlestickPattern` record. -/
structure CandlestickPattern where
  name : String
  type : PatternType
  strength : ℚ
  description : String
deriving DecidableEq

/-- Market bias (`"bullish" | "bearish" | "neutral"`). -/
inductive Bias where
  | bullish | bearish | neutral
deriving DecidableEq

/-- `PsychologyAnalysis` record. -/
structure PsychologyAnalysis where
  bodyRatio : ℚ
  upperWickRatio : ℚ
  lowerWickRatio : ℚ
  isDoji : Bool
  patterns : List CandlestickPattern
  bias : Bias
  orderBlockProbability : ℚ
  fvgDetected : Bool
deriving DecidableEq

/-- A candle.  `timestamp` is the bucket start epoch; the `open` field of
the source is renamed `open_` (`open` is a Lean keyword). -/
structure Candle where
  timestamp : ℤ
  open_ : ℚ
  high : ℚ
  low : ℚ
  close : ℚ
deriving DecidableEq

/-- Result of the prediction engine: `{estimatedClose, indicators,
psychology, volatility}`. -/
structure VolatilityCheck where
  isVolatile : Bool
  reason : Option String := none
deriving DecidableEq

structure Prediction where
  estimatedClose : ℚ
  indicators : IndicatorValues
  psychology : PsychologyAnalysis
  volatility : VolatilityCheck
deriving DecidableEq

/-- `SessionOptions`: per-session overrides.  `customWeights`
(`Record<string, number>`) is modelled as an association list. -/
structure SessionOptions where
  enabledIndicators : Option (List String) := none
  customWeights : Option (List (String × ℚ)) := none
deriving DecidableEq

/-- `SignalResult`, the output record of `generateSignal`. -/
structure SignalResult where
  sessionId : String
  symbol : String
  timeframe : ℤ
  timestamp : ℤ
  candleCloseTime : ℤ
  direction : Direction
  confidence : ℤ
  pUp : ℚ
  pDown : ℚ
  votes : List Vote
  indicators : IndicatorValues
  psychology : PsychologyAnalysis
  volatilityOverride : Bool
  volatilityReason : Option String := none
  closedCandlesCount : ℕ
  formingCandle : Option Candle
deriving DecidableEq

/-! ### Configuration (`server/config/indicators.ts`) -/

structure IndicatorWeight where
  name : String
  weight : ℚ
  enabled : Bool
deriving DecidableEq

def DEFAULT_INDICATOR_WEIGHTS : List IndicatorWeight := [
  ⟨"ema_cross_5_21", 1.2, true⟩,
  ⟨"ema_cross_9_21", 1.1, true⟩,
  ⟨"ema_cross_12_50", 1.3, true⟩,
  ⟨"sma_trend_20", 0.8, true⟩,
  ⟨"sma_trend_50", 0.9, true⟩,
  ⟨"sma_trend_200", 1.0, true⟩,
  ⟨"macd_signal", 1.4, true⟩,
  ⟨"macd_histogram", 1.2, true⟩,
  ⟨"rsi_overbought", 1.3, true⟩,
  ⟨"rsi_oversold", 1.3, true⟩,
  ⟨"rsi_divergence", 1.5, true⟩,
  ⟨"stochastic_cross", 1.1, true⟩,
  ⟨"stochastic_extreme", 1.0, true⟩,
  ⟨"adx_trend_strength", 0.9, true⟩,
  ⟨"cci_signal", 0.8, true⟩,
  ⟨"williams_r", 0.7, true⟩,
  ⟨"bollinger_squeeze", 1.2, true⟩,
  ⟨"bollinger_breakout", 1.4, true⟩,
  ⟨"keltner_breakout", 1.1, true⟩,
  ⟨"hull_ma_trend", 1.0, true⟩,
  ⟨"supertrend_signal", 1.5, true⟩,
  ⟨"roc_momentum", 0.8, true⟩,
  ⟨"momentum_signal", 0.7, true⟩,
  ⟨"donchian_breakout", 1.1, true⟩,
  ⟨"psar_signal", 1.2, true⟩,
  ⟨"ultimate_osc", 0.9, true⟩,
  ⟨"mean_reversion", 1.0, true⟩,
  ⟨"lin_reg_slope", 0.8, true⟩,
  ⟨"fisher_transform", 0.9, true⟩,
  ⟨"engulfing_pattern", 1.5, true⟩,
  ⟨"hammer_pattern", 1.3, true⟩,
  ⟨"shooting_star", 1.3, true⟩,
  ⟨"doji_pattern", 0.8, true⟩,
  ⟨"wick_rejection", 1.1, true⟩,
  ⟨"order_block", 1.4, true⟩,
  ⟨"fvg_signal", 1.2, true⟩]

structure VolatilityConfig where
  atrThreshold : ℚ
  tickVolatilityThreshold : ℚ
  tickVolatilityWindow : ℕ
  minCandlesForSignal : ℕ

def VOLATILITY_CONFIG : VolatilityConfig :=
  { atrThreshold := 0.005
    tickVolatilityThreshold := 0.003
    tickVolatilityWindow := 10
    minCandlesForSignal := 50 }

structure SignalConfig where
  minConfidence : ℤ
  preCloseSeconds : ℤ
  sendSignalSeconds : ℤ
  historyCandles : ℕ
  chartCandles : ℕ

def SIGNAL_CONFIG : SignalConfig :=
  { minConfidence := 60
    preCloseSeconds := 4
    sendSignalSeconds := 3
    historyCandles := 300
    chartCandles := 100 }

/-- `getIndicatorWeight`: custom weight when the entry is present,
otherwise the table weight; `indicator?.weight || 1.0` yields `1.0` when
the name is absent from the table (and on a zero table weight, which the
table does not contain). -/
def getIndicatorWeight (name : String) (customWeights : Option (List (String × ℚ))) : ℚ :=
  match customWeights with
  | some ws =>
    match ws.lookup name with
    | some w => w
    | none => defaultPart
  | none => defaultPart
where
  defaultPart : ℚ :=
    match DEFAULT_INDICATOR_WEIGHTS.find? (fun w => w.name == name) with
    | some ind => if ind.weight == 0 then 1.0 else ind.weight
    | none => 1.0

/-- `isIndicatorEnabled`: whitelist membership when a whitelist is given
(`undefined` only, an empty array is a valid — all-disabling — list),
otherwise the table's `enabled` flag, `true` for unknown names. -/
def isIndicatorEnabled (name : String) (enabledIndicators : Option (List String)) : Bool :=
  match enabledIndicators with
  | none =>
    match DEFAULT_INDICATOR_WEIGHTS.find? (fun w => w.name == name) with
    | some ind => ind.enabled
    | none => true
  | some l => l.contains name

/-! ### Vote producers (`server/services/signalEngine.ts`) -/

/-- `voteFromEMACross`: the caller passes the two EMA fields named by
`fastKey`/`slowKey`; here they are passed as the two option values. -/
def voteFromEMACross (fast slow : Option ℚ) (lastClose : ℚ) (name : String) : Option Vote :=
  match fast, slow with
  | some f, some s =>
    if f > s ∧ lastClose > f then some ⟨name, .UP, 1⟩
    else if f < s ∧ lastClose < f then some ⟨name, .DOWN, 1⟩
    else some ⟨name, .NEUTRAL, 0.3⟩
  | _, _ => none

/-- `voteFromSMATrend` (the ±0.1% band on `(close − sma)/sma`). -/
def voteFromSMATrend (sma : Option ℚ) (lastClose : ℚ) (name : String) : Option Vote :=
  match sma with
  | none => none
  | some s =>
    let diff := (lastClose - s) / s
    if diff > 0.001 then some ⟨name, .UP, 1⟩
    else if diff < -0.001 then some ⟨name, .DOWN, 1⟩
    else some ⟨name, .NEUTRAL, 0.5⟩

/-- `voteFromMACD`: a `macd_signal` vote plus a `macd_histogram` vote with
a ±1e-5 dead zone. -/
def voteFromMACD (macd : Option MACDValue) : List Vote :=
  match macd with
  | none => []
  | some m =>
    let v1 : Vote :=
      if m.macd > m.signal then ⟨"macd_signal", .UP, 1⟩
      else ⟨"macd_signal", .DOWN, 1⟩
    let v2 : Vote :=
      if m.histogram > 0 ∧ m.histogram > 0.00001 then ⟨"macd_histogram", .UP, 1⟩
      else if m.histogram < 0 ∧ m.histogram < -0.00001 then ⟨"macd_histogram", .DOWN, 1⟩
      else ⟨"macd_histogram", .NEUTRAL, 0.3⟩
    [v1, v2]

/-- `voteFromRSI` (30/70 extremes, 50-cross trend vote at weight 0.5). -/
def voteFromRSI (rsi14 : Option ℚ) : List Vote :=
  match rsi14 with
  | none => []
  | some rsi =>
    if rsi < 30 then [⟨"rsi_oversold", .UP, 1⟩]
    else if rsi > 70 then [⟨"rsi_overbought", .DOWN, 1⟩]
    else if rsi > 50 then [⟨"rsi_trend", .UP, 0.5⟩]
    else [⟨"rsi_trend", .DOWN, 0.5⟩]

/-- `voteFromStochastic` (cross vote and 20/80 extreme vote). -/
def voteFromStochastic (stochastic : Option StochasticValue) : List Vote :=
  match stochastic with
  | none => []
  | some st =>
    let crossVotes : List Vote :=
      if st.k > st.d ∧ st.k < 80 then [⟨"stochastic_cross", .UP, 1⟩]
      else if st.k < st.d ∧ st.k > 20 then [⟨"stochastic_cross", .DOWN, 1⟩]
      else []
    let extremeVotes : List Vote :=
      if st.k < 20 then [⟨"stochastic_extreme", .UP, 1⟩]
      else if st.k > 80 then [⟨"stochastic_extreme", .DOWN, 1⟩]
      else []
    crossVotes ++ extremeVotes

/-- `voteFromBollinger` (squeeze below 2% bandwidth; band breakouts). -/
def voteFromBollinger (bollingerBands : Option BollingerValue) (lastClose : ℚ) : List Vote :=
  match bollingerBands with
  | none => []
  | some bb =>
    let bandwidth := (bb.upper - bb.lower) / bb.middle
    let squeezeVotes : List Vote :=
      if bandwidth < 0.02 then [⟨"bollinger_squeeze", .NEUTRAL, 0.8⟩] else []
    let breakoutVotes : List Vote :=
      if lastClose > bb.upper then [⟨"bollinger_breakout", .UP, 1⟩]
      else if lastClose < bb.lower then [⟨"bollinger_breakout", .DOWN, 1⟩]
      else []
    squeezeVotes ++ breakoutVotes

/-- `voteFromSuperTrend`. -/
def voteFromSuperTrend (superTrend : Option SuperTrendValue) : Option Vote :=
  match superTrend with
  | none => none
  | some st =>
    match st.direction with
    | .up => some ⟨"supertrend_signal", .UP, 1⟩
    | .down => some ⟨"supertrend_signal", .DOWN, 1⟩

/-- `voteFromPSAR`. -/
def voteFromPSAR (psar : Option ℚ) (lastClose : ℚ) : Option Vote :=
  match psar with
  | none => none
  | some p =>
    if lastClose > p then some ⟨"psar_signal", .UP, 1⟩
    else some ⟨"psar_signal", .DOWN, 1⟩

/-- `voteFromADX` (a NEUTRAL trend-strength marker). -/
def voteFromADX (adx : Option ℚ) : Option Vote :=
  match adx with
  | none => none
  | some a =>
    if a < 25 then some ⟨"adx_trend_strength", .NEUTRAL, 0.5⟩
    else some ⟨"adx_trend_strength", .NEUTRAL, 1⟩

/-- `voteFromCCI` (±100 thresholds). -/
def voteFromCCI (cci : Option ℚ) : Option Vote :=
  match cci with
  | none => none
  | some c =>
    if c > 100 then some ⟨"cci_signal", .UP, 1⟩
    else if c < -100 then some ⟨"cci_signal", .DOWN, 1⟩
    else some ⟨"cci_signal", .NEUTRAL, 0.3⟩

/-- `voteFromWilliamsR` (−80/−20 thresholds). -/
def voteFromWilliamsR (williamsR : Option ℚ) : Option Vote :=
  match williamsR with
  | none => none
  | some wr =>
    if wr < -80 then some ⟨"williams_r", .UP, 1⟩
    else if wr > -20 then some ⟨"williams_r", .DOWN, 1⟩
    else some ⟨"williams_r", .NEUTRAL, 0.3⟩

/-- `voteFromHullMA`. -/
def voteFromHullMA (hullMA : Option ℚ) (lastClose : ℚ) : Option Vote :=
  match hullMA with
  | none => none
  | some h =>
    if lastClose > h then some ⟨"hull_ma_trend", .UP, 1⟩
    else some ⟨"hull_ma_trend", .DOWN, 1⟩

/-- `voteFromMeanReversion` (|Z| > 2). -/
def voteFromMeanReversion (meanReversionZ : Option ℚ) : Option Vote :=
  match meanReversionZ with
  | none => none
  | some z =>
    if z < -2 then some ⟨"mean_reversion", .UP, 1⟩
    else if z > 2 then some ⟨"mean_reversion", .DOWN, 1⟩
    else none

/-- JS `string.includes(sub)` for a non-empty `sub`. -/
def strIncludes (s sub : String) : Bool := (s.splitOn sub).length != 1

/-- JS `replace(/\s+/g, "_")`: each maximal whitespace run becomes one
underscore.  The flag records whether the previous character was
whitespace. -/
def squashWhitespace : Bool → List Char → List Char
  | _, [] => []
  | prevWS, c :: rest =>
    if c.isWhitespace then
      if prevWS then squashWhitespace true rest
      else '_' :: squashWhitespace true rest
    else c :: squashWhitespace false rest

/-- `pattern.name.toLowerCase().replace(/\s+/g, "_")`. -/
def slugify (s : String) : String :=
  String.mk (squashWhitespace false s.toLower.data)

/-- The vote built for one candlestick pattern inside
`voteFromPsychology`, including the in-place renames to
`engulfing_pattern` / `hammer_pattern` / `shooting_star` (later renames
override earlier ones, as in the source's sequential assignments). -/
def patternVote (pattern : CandlestickPattern) : Vote :=
  match pattern.type with
  | .bullish =>
    let n0 := slugify pattern.name
    let n1 := if strIncludes pattern.name "Engulfing" then "engulfing_pattern" else n0
    let n2 := if strIncludes pattern.name "Hammer" then "hammer_pattern" else n1
    ⟨n2, .UP, pattern.strength⟩
  | .bearish =>
    let n0 := slugify pattern.name
    let n1 := if strIncludes pattern.name "Engulfing" then "engulfing_pattern" else n0
    let n2 := if strIncludes pattern.name "Shooting" then "shooting_star" else n1
    ⟨n2, .DOWN, pattern.strength⟩
  | .neutral => ⟨"doji_pattern", .NEUTRAL, pattern.strength * 0.5⟩

/-- `voteFromPsychology`: the pattern loop, then the conditional
`order_block`, `fvg_signal` and `wick_rejection` pushes. -/
def voteFromPsychology (psychology : PsychologyAnalysis) : List Vote :=
  let votes := psychology.patterns.map patternVote
  let votes :=
    if psychology.orderBlockProbability > 0.6 then
      let direction : VoteDir :=
        match psychology.bias with
        | .bullish => .UP
        | .bearish => .DOWN
        | .neutral => .NEUTRAL
      votes ++ [⟨"order_block", direction, psychology.orderBlockProbability⟩]
    else votes
  let votes :=
    if psychology.fvgDetected then
      votes ++ [⟨"fvg_signal", if psychology.bias = .bullish then .UP else .DOWN, 0.8⟩]
    else votes
  let votes :=
    if psychology.upperWickRatio > 0.6 then
      votes ++ [⟨"wick_rejection", .DOWN, psychology.upperWickRatio⟩]
    else votes
  let votes :=
    if psychology.lowerWickRatio > 0.6 then
      votes ++ [⟨"wick_rejection", .UP, psychology.lowerWickRatio⟩]
    else votes
  votes

/-! ### `collectVotes`, scoring, decision, `generateSignal` -/

/-- The body of `collectVotes`' local `addVote` helper: filter by the
explicit `name`, scale the weight, append. -/
def addVote (enabled : Option (List String)) (custom : Option (List (String × ℚ)))
    (votes : List Vote) (vote : Option Vote) (name : String) : List Vote :=
  match vote with
  | none => votes
  | some v =>
    if isIndicatorEnabled name enabled then
      votes ++ [{ v with weight := v.weight * getIndicatorWeight name custom }]
    else votes

/-- The body of `collectVotes`' local `addVotes` helper; every call site
leaves `prefix` at its default `""`, so the name used is always the
vote's own `indicator` field. -/
def addVotes (enabled : Option (List String)) (custom : Option (List (String × ℚ)))
    (votes : List Vote) (voteList : List Vote) : List Vote :=
  voteList.foldl
    (fun acc v =>
      if isIndicatorEnabled v.indicator enabled then
        acc ++ [{ v with weight := v.weight * getIndicatorWeight v.indicator custom }]
      else acc)
    votes

/-- `collectVotes`: run every producer and pipe each result through the
enable filter and the weight multiplier. -/
def collectVotes (indicators : IndicatorValues) (psychology : PsychologyAnalysis)
    (lastClose : ℚ) (options : Option SessionOptions) : List Vote :=
  let enabled := options.bind (fun o => o.enabledIndicators)
  let custom := options.bind (fun o => o.customWeights)
  let votes : List Vote := []
  let votes := addVote enabled custom votes
    (voteFromEMACross indicators.ema5 indicators.ema21 lastClose "ema_cross_5_21") "ema_cross_5_21"
  let votes := addVote enabled custom votes
    (voteFromEMACross indicators.ema9 indicators.ema21 lastClose "ema_cross_9_21") "ema_cross_9_21"
  let votes := addVote enabled custom votes
    (voteFromEMACross indicators.ema12 indicators.ema50 lastClose "ema_cross_12_50") "ema_cross_12_50"
  let votes := addVote enabled custom votes
    (voteFromSMATrend indicators.sma20 lastClose "sma_trend_20") "sma_trend_20"
  let votes := addVote enabled custom votes
    (voteFromSMATrend indicators.sma50 lastClose "sma_trend_50") "sma_trend_50"
  let votes := addVote enabled custom votes
    (voteFromSMATrend indicators.sma200 lastClose "sma_trend_200") "sma_trend_200"
  let votes := addVotes enabled custom votes (voteFromMACD indicators.macd)
  let votes := addVotes enabled custom votes (voteFromRSI indicators.rsi14)
  let votes := addVotes enabled custom votes (voteFromStochastic indicators.stochastic)
  let votes := addVotes enabled custom votes (voteFromBollinger indicators.bollingerBands lastClose)
  let votes := addVote enabled custom votes (voteFromSuperTrend indicators.superTrend) "supertrend_signal"
  let votes := addVote enabled custom votes (voteFromPSAR indicators.psar lastClose) "psar_signal"
  let votes := addVote enabled custom votes (voteFromADX indicators.adx) "adx_trend_strength"
  let votes := addVote enabled custom votes (voteFromCCI indicators.cci) "cci_signal"
  let votes := addVote enabled custom votes (voteFromWilliamsR indicators.williamsR) "williams_r"
  let votes := addVote enabled custom votes (voteFromHullMA indicators.hullMA lastClose) "hull_ma_trend"
  let votes := addVote enabled custom votes (voteFromMeanReversion indicators.meanReversionZ) "mean_reversion"
  let votes := addVotes enabled custom votes (voteFromPsychology psychology)
  votes

/-- Result record of `calculateScores`. -/
structure Scores where
  finalUp : ℚ
  finalDown : ℚ
  pUp : ℚ
deriving DecidableEq

/-- `calculateScores`: accumulate UP and DOWN weights, then
`pUp = finalUp / (finalUp + finalDown + 1e-9)`. -/
def calculateScores (votes : List Vote) : Scores :=
  let sums := votes.foldl
    (fun (p : ℚ × ℚ) v =>
      match v.direction with
      | .UP => (p.1 + v.weight, p.2)
      | .DOWN => (p.1, p.2 + v.weight)
      | .NEUTRAL => p)
    (0, 0)
  let total := sums.1 + sums.2 + 1e-9
  { finalUp := sums.1, finalDown := sums.2, pUp := sums.1 / total }

/-- `determineDirection`. -/
def determineDirection (pUp : ℚ) (confidence : ℤ) : Direction :=
  if confidence < SIGNAL_CONFIG.minConfidence then .NO_TRADE
  else if pUp > 0.5 then .CALL else .PUT

/-- The `psychology` literal returned on the insufficient-data path. -/
def emptyPsychology : PsychologyAnalysis :=
  { bodyRatio := 0
    upperWickRatio := 0
    lowerWickRatio := 0
    isDoji := false
    patterns := []
    bias := .neutral
    orderBlockProbability := 0
    fvgDetected := false }

/-- `generateSignal`.  Two ambient dependencies of the source are made
explicit parameters: `predict` (the prediction engine, a separate module)
and `now` (the source computes `timestamp = Math.floor(Date.now()/1000)`
at entry). -/
def generateSignal (predict : List Candle → Option Candle → Prediction)
    (sessionId symbol : String) (timeframe : ℤ)
    (closedCandles : List Candle) (formingCandle : Option Candle)
    (candleCloseTime : ℤ) (options : Option SessionOptions) (now : ℤ) : SignalResult :=
  let timestamp := now
  if closedCandles.length < VOLATILITY_CONFIG.minCandlesForSignal then
    { sessionId, symbol, timeframe, timestamp, candleCloseTime
      direction := .NO_TRADE
      confidence := 0
      pUp := 0.5
      pDown := 0.5
      votes := []
      indicators := {}
      psychology := emptyPsychology
      volatilityOverride := false
      closedCandlesCount := closedCandles.length
      formingCandle }
  else
    let prediction := predict closedCandles formingCandle
    if prediction.volatility.isVolatile then
      { sessionId, symbol, timeframe, timestamp, candleCloseTime
        direction := .NO_TRADE
        confidence := 0
        pUp := 0.5
        pDown := 0.5
        votes := []
        indicators := prediction.indicators
        psychology := prediction.psychology
        volatilityOverride := true
        volatilityReason := prediction.volatility.reason
        closedCandlesCount := closedCandles.length
        formingCandle }
    else
      let lastClose := prediction.estimatedClose
      let votes := collectVotes prediction.indicators prediction.psychology lastClose options
      let scores := calculateScores votes
      let pUp := scores.pUp
      let confidence := jsRound (max pUp (1 - pUp) * 100)
      let direction := determineDirection pUp confidence
      { sessionId, symbol, timeframe, timestamp, candleCloseTime
        direction
        confidence
        pUp
        pDown := 1 - pUp
        votes
        indicators := prediction.indicators
        psychology := prediction.psychology
        volatilityOverride := false
        closedCandlesCount := closedCandles.length
        formingCandle }

/-! ### Asset / timeframe catalogue (`server/config/assets.ts`) -/

inductive AssetCategory where
  | forex | synthetic | crypto
deriving DecidableEq

structure Asset where
  id : String
  name : String
  category : AssetCategory
deriving DecidableEq

def SUPPORTED_ASSETS : List Asset := [
  ⟨"frxEURUSD", "EUR / USD", .forex⟩,
  ⟨"frxGBPUSD", "GBP / USD", .forex⟩,
  ⟨"frxUSDJPY", "USD / JPY", .forex⟩,
  ⟨"frxAUDUSD", "AUD / USD", .forex⟩,
  ⟨"frxUSDINR", "USD / INR", .forex⟩,
  ⟨"frxUSDCAD", "USD / CAD", .forex⟩,
  ⟨"frxEURGBP", "EUR / GBP", .forex⟩,
  ⟨"frxEURJPY", "EUR / JPY", .forex⟩,
  ⟨"R_10", "Volatility 10 Index", .synthetic⟩,
  ⟨"R_25", "Volatility 25 Index", .synthetic⟩,
  ⟨"R_50", "Volatility 50 Index", .synthetic⟩,
  ⟨"R_75", "Volatility 75 Index", .synthetic⟩,
  ⟨"R_100", "Volatility 100 Index", .synthetic⟩,
  ⟨"1HZ10V", "Volatility 10 (1s) Index", .synthetic⟩,
  ⟨"1HZ25V", "Volatility 25 (1s) Index", .synthetic⟩,
  ⟨"1HZ50V", "Volatility 50 (1s) Index", .synthetic⟩,
  ⟨"1HZ75V", "Volatility 75 (1s) Index", .synthetic⟩,
  ⟨"1HZ100V", "Volatility 100 (1s) Index", .synthetic⟩,
  ⟨"cryBTCUSD", "Bitcoin / USD", .crypto⟩,
  ⟨"cryETHUSD", "Ethereum / USD", .crypto⟩]

structure TimeframeEntry where
  value : ℤ
  label : String
deriving DecidableEq

def TIMEFRAMES : List TimeframeEntry :=
  [⟨60, "1m"⟩, ⟨120, "2m"⟩, ⟨300, "5m"⟩, ⟨900, "15m"⟩, ⟨1800, "30m"⟩, ⟨3600, "1h"⟩]

def getAssetById (id : String) : Option Asset :=
  SUPPORTED_ASSETS.find? (fun asset => asset.id == id)

/-! ### Session Manager (`server/services/sessionManager.ts`)

The manager's feed, aggregator and timer side effects are abstracted
away; what is modelled is the session bookkeeping that the claims are
about: the `sessions` map (an association list keyed by id), the
duplicate-id rejection in `startSession`, the status flip (without
deletion) in `stopSession`, and the pre-close dedup guard. -/

inductive SessionStatus where
  | active | stopped
deriving DecidableEq

structure Session where
  id : String
  chatId : ℤ
  symbol : String
  timeframe : ℤ
  status : SessionStatus
  startedAt : ℤ
deriving DecidableEq

structure ManagerState where
  sessions : List (String × Session)
deriving DecidableEq

/-- `startSession`: throws when the id is already present; otherwise
records the session with `status = active` and `startedAt = now`.  The
history fetch / subscription side effects (which can also fail, on feed
unavailability) are not modelled. -/
def startSession (st : ManagerState) (sessionId : String) (chatId : ℤ)
    (symbol : String) (timeframe : ℤ) (now : ℤ) : Except String (ManagerState × Session) :=
  if (st.sessions.lookup sessionId).isSome then
    .error ("Session " ++ sessionId ++ " already exists")
  else
    let session : Session :=
      { id := sessionId, chatId, symbol, timeframe, status := .active, startedAt := now }
    .ok ({ sessions := st.sessions ++ [(sessionId, session)] }, session)

/-- `stopSession`: a missing id is a no-op (a warning is logged); an
existing session has its `status` set to `"stopped"` in place.  The
entry is NOT removed from the map. -/
def stopSession (st : ManagerState) (sessionId : String) : ManagerState :=
  match st.sessions.lookup sessionId with
  | none => st
  | some _ =>
    { sessions := st.sessions.map
        (fun p => if p.1 = sessionId then (p.1, { p.2 with status := SessionStatus.stopped }) else p) }

/-- The dedup state of one session's pre-close scheduler:
`lastSignalCandleTimestamp` starts out `undefined` (`none`). -/
structure SchedState where
  lastSignalCandleTimestamp : Option ℤ
deriving DecidableEq

/-- One pre-close firing (either the late-arm path or the on-time timer
path of `scheduleNextPreClose`; both run the same guard): given the
current forming candle's start timestamp, emit — and record the start —
exactly when `lastSignalCandleTimestamp` differs from it.  Returns the
new state and whether `emitPreCloseSignal` ran. -/
def fireStep (s : SchedState) (formingStart : ℤ) : SchedState × Bool :=
  if s.lastSignalCandleTimestamp ≠ some formingStart then
    ({ lastSignalCandleTimestamp := some formingStart }, true)
  else (s, false)

/-- The forming-candle starts for which a trace of successive firings
emits a pre-close signal, in order. -/
def runFirings (s : SchedState) : List ℤ → List ℤ
  | [] => []
  | t :: ts =>
    let step := fireStep s t
    if step.2 then t :: runFirings step.1 ts else runFirings step.1 ts

/-! ### Shared concrete inputs for witnesses and counterexamples -/

/-- A constant, non-volatile prediction function (the prediction engine
is an arbitrary parameter of the embedding; witnesses pick a concrete
instance). -/
def predictConst : List Candle → Option Candle → Prediction :=
  fun _ _ =>
    { estimatedClose := 1, indicators := {}, psychology := emptyPsychology,
      volatility := { isVolatile := false } }

/-- A constant prediction function reporting high volatility. -/
def predictVolatile : List Candle → Option Candle → Prediction :=
  fun _ _ =>
    { estimatedClose := 1, indicators := {}, psychology := emptyPsychology,
      volatility := { isVolatile := true, reason := some "High ATR volatility" } }

/-- A concrete candle. -/
def c0 : Candle := ⟨0, 1, 1, 1, 1⟩

/-! ### C1: volatility override forces NO_TRADE at zero confidence -/

/-- C1: every `SignalResult` returned by `generateSignal` whose
`volatilityOverride` field is `true` has `direction = NO_TRADE` and
`confidence = 0`, for all inputs (including any behaviour of the
prediction engine). -/
theorem volatilityOverride_implies_noTrade
    (predict : List Candle → Option Candle → Prediction)
    (sessionId symbol : String) (timeframe : ℤ) (closedCandles : List Candle)
    (formingCandle : Option Candle) (candleCloseTime : ℤ)
    (options : Option SessionOptions) (now : ℤ)
    (h : (generateSignal predict sessionId symbol timeframe closedCandles formingCandle
      candleCloseTime options now).volatilityOverride = true) :
    (generateSignal predict sessionId symbol timeframe closedCandles formingCandle
      candleCloseTime options now).direction = Direction.NO_TRADE ∧
    (generateSignal predict sessionId symbol timeframe closedCandles formingCandle
      candleCloseTime options now).confidence = 0 := by
  by_cases h1 : closedCandles.length < VOLATILITY_CONFIG.minCandlesForSignal
  · simp [generateSignal, h1] at h
  · by_cases h2 : (predict closedCandles formingCandle).volatility.isVolatile
    · simp [generateSignal, h1, h2]
    · simp [generateSignal, h1, h2] at h

/-- Witness for C1: a concrete volatile run. -/
theorem volatilityOverride_implies_noTrade_witness :
    (generateSignal predictVolatile "s" "frxEURUSD" 60 (List.replicate 50 c0) none 0 none 0).direction
      = Direction.NO_TRADE ∧
    (generateSignal predictVolatile "s" "frxEURUSD" 60 (List.replicate 50 c0) none 0 none 0).confidence
      = 0 :=
  volatilityOverride_implies_noTrade predictVolatile "s" "frxEURUSD" 60 (List.replicate 50 c0)
    none 0 none 0
    (by norm_num [generateSignal, predictVolatile, VOLATILITY_CONFIG])

/-! ### C2: insufficient-data gate -/

/-- C2: with fewer than `minCandlesForSignal = 50` closed candles,
`generateSignal` returns `NO_TRADE` with zero confidence, no votes, the
empty indicator record and `volatilityOverride = false`, for any forming
candle and options (and any prediction engine, which is not even
consulted on this path). -/
theorem generateSignal_insufficient_data
    (predict : List Candle → Option Candle → Prediction)
    (sessionId symbol : String) (timeframe : ℤ) (closedCandles : List Candle)
    (formingCandle : Option Candle) (candleCloseTime : ℤ)
    (options : Option SessionOptions) (now : ℤ)
    (h : closedCandles.length < VOLATILITY_CONFIG.minCandlesForSignal) :
    (generateSignal predict sessionId symbol timeframe closedCandles formingCandle
        candleCloseTime options now).direction = Direction.NO_TRADE ∧
    (generateSignal predict sessionId symbol timeframe closedCandles formingCandle
        candleCloseTime options now).confidence = 0 ∧
    (generateSignal predict sessionId symbol timeframe closedCandles formingCandle
        candleCloseTime options now).votes = [] ∧
    (generateSignal predict sessionId symbol timeframe closedCandles formingCandle
        candleCloseTime options now).indicators = ({} : IndicatorValues) ∧
    (generateSignal predict sessionId symbol timeframe closedCandles formingCandle
        candleCloseTime options now).volatilityOverride = false := by
  simp [generateSignal, h]

/-- Witness for C2: ten closed candles (spec scenario S2). -/
theorem generateSignal_insufficient_data_witness :
    List.length (List.replicate 10 c0) < VOLATILITY_CONFIG.minCandlesForSignal ∧
    (generateSignal predictConst "s" "frxEURUSD" 60 (List.replicate 10 c0) none 0 none 0).direction
      = Direction.NO_TRADE ∧
    (generateSignal predictConst "s" "frxEURUSD" 60 (List.replicate 10 c0) none 0 none 0).confidence
      = 0 :=
  have h : List.length (List.replicate 10 c0) < VOLATILITY_CONFIG.minCandlesForSignal := by
    norm_num [VOLATILITY_CONFIG]
  have r := generateSignal_insufficient_data predictConst "s" "frxEURUSD" 60
    (List.replicate 10 c0) none 0 none 0 h
  ⟨h, r.1, r.2.1⟩

/-! ### C10: determinism of `generateSignal` -/

/-- C10 counterexample: the source computes the `timestamp` field from
`Date.now()` (modelled by the extra `now` parameter), so two calls with
identical listed inputs made at different wall-clock seconds give
different results: the claim "identical SignalResult outputs, all fields
included" fails. -/
theorem generateSignal_not_time_invariant :
    generateSignal predictConst "s" "frxEURUSD" 60 [] none 0 none 0 ≠
      generateSignal predictConst "s" "frxEURUSD" 60 [] none 0 none 1 := by
  intro h
  have := congrArg SignalResult.timestamp h
  simp [generateSignal, VOLATILITY_CONFIG] at this

/-- C10 (amended): `generateSignal` is a pure function of its arguments
plus the current wall-clock second; only the `timestamp` field depends
on the latter.  Calls at times `now₁` and `now₂` with identical inputs
agree on every other field, and calls at the same time are identical. -/
theorem generateSignal_deterministic_up_to_timestamp
    (predict : List Candle → Option Candle → Prediction)
    (sessionId symbol : String) (timeframe : ℤ) (closedCandles : List Candle)
    (formingCandle : Option Candle) (candleCloseTime : ℤ)
    (options : Option SessionOptions) (now₁ now₂ : ℤ) :
    generateSignal predict sessionId symbol timeframe closedCandles formingCandle
        candleCloseTime options now₁ =
      { generateSignal predict sessionId symbol timeframe closedCandles formingCandle
          candleCloseTime options now₂ with timestamp := now₁ } := by
  by_cases h1 : closedCandles.length < VOLATILITY_CONFIG.minCandlesForSignal
  · simp [generateSignal, h1]
  · by_cases h2 : (predict closedCandles formingCandle).volatility.isVolatile
    · simp [generateSignal, h1, h2]
    · simp [generateSignal, h1, h2]

/-! ### C4: probability closure and the scoring formulas -/

/-- Sum of the weights of the votes in a given direction. -/
def sumWeights (dir : VoteDir) (votes : List Vote) : ℚ :=
  ((votes.filter (fun v => v.direction = dir)).map Vote.weight).sum

lemma scoresFold_eq (l : List Vote) (a b : ℚ) :
    l.foldl
        (fun (p : ℚ × ℚ) v =>
          match v.direction with
          | .UP => (p.1 + v.weight, p.2)
          | .DOWN => (p.1, p.2 + v.weight)
          | .NEUTRAL => p)
        (a, b) =
      (a + sumWeights .UP l, b + sumWeights .DOWN l) := by
  induction l generalizing a b with
  | nil => simp [sumWeights]
  | cons v t ih =>
    rcases hv : v.direction <;>
      simp [List.foldl_cons, hv, ih, sumWeights, List.filter_cons, add_assoc]

/-- `calculateScores` computes exactly the claimed sums and ratio. -/
lemma calculateScores_spec (votes : List Vote) :
    calculateScores votes =
      { finalUp := sumWeights .UP votes
        finalDown := sumWeights .DOWN votes
        pUp := sumWeights .UP votes /
          (sumWeights .UP votes + sumWeights .DOWN votes + 1e-9) } := by
  simp only [calculateScores]
  rw [scoresFold_eq]
  simp

/-- C4 counterexample: on the insufficient-data path the result has
`confidence = 0` but `pUp = pDown = 1/2`, so
`round(max(pUp, pDown)·100) = 50 ≠ 0`: the claim fails on the early
return paths. -/
theorem confidence_formula_fails_on_gate_path :
    (generateSignal predictConst "s" "frxEURUSD" 60 [] none 0 none 0).confidence ≠
      jsRound (max (generateSignal predictConst "s" "frxEURUSD" 60 [] none 0 none 0).pUp
        (generateSignal predictConst "s" "frxEURUSD" 60 [] none 0 none 0).pDown * 100) := by
  norm_num [generateSignal, jsRound, VOLATILITY_CONFIG]

/-- C4 (amended): every result satisfies `pUp + pDown = 1` exactly; on
the scored path (enough candles, no volatility override) additionally
`pUp = (Σ UP weights) / (Σ UP weights + Σ DOWN weights + 1e-9)` over the
result's votes, and `confidence = round(max(pUp, pDown)·100)`.  On the
two early-return paths `pUp = pDown = 1/2` while `confidence = 0`. -/
theorem generateSignal_score_closure
    (predict : List Candle → Option Candle → Prediction)
    (sessionId symbol : String) (timeframe : ℤ) (closedCandles : List Candle)
    (formingCandle : Option Candle) (candleCloseTime : ℤ)
    (options : Option SessionOptions) (now : ℤ) :
    (generateSignal predict sessionId symbol timeframe closedCandles formingCandle
        candleCloseTime options now).pUp +
      (generateSignal predict sessionId symbol timeframe closedCandles formingCandle
        candleCloseTime options now).pDown = 1 ∧
    (¬ closedCandles.length < VOLATILITY_CONFIG.minCandlesForSignal →
      (predict closedCandles formingCandle).volatility.isVolatile = false →
      (generateSignal predict sessionId symbol timeframe closedCandles formingCandle
          candleCloseTime options now).pUp =
        sumWeights .UP (generateSignal predict sessionId symbol timeframe closedCandles
            formingCandle candleCloseTime options now).votes /
          (sumWeights .UP (generateSignal predict sessionId symbol timeframe closedCandles
              formingCandle candleCloseTime options now).votes +
            sumWeights .DOWN (generateSignal predict sessionId symbol timeframe closedCandles
              formingCandle candleCloseTime options now).votes + 1e-9) ∧
      (generateSignal predict sessionId symbol timeframe closedCandles formingCandle
          candleCloseTime options now).confidence =
        jsRound (max (generateSignal predict sessionId symbol timeframe closedCandles
            formingCandle candleCloseTime options now).pUp
          (generateSignal predict sessionId symbol timeframe closedCandles formingCandle
            candleCloseTime options now).pDown * 100)) := by
  constructor
  · by_cases h1 : closedCandles.length < VOLATILITY_CONFIG.minCandlesForSignal
    · norm_num [generateSignal, h1]
    · by_cases h2 : (predict closedCandles formingCandle).volatility.isVolatile
      · norm_num [generateSignal, h1, h2]
      · simp [generateSignal, h1, h2]
  · intro h1 h2
    simp [generateSignal, h1, h2, calculateScores_spec]

/-- Witness for C4 (amended): a concrete scored-path run with 50 candles
and an empty indicator record. -/
theorem generateSignal_score_closure_witness :
    (¬ List.length (List.replicate 50 c0) < VOLATILITY_CONFIG.minCandlesForSignal) ∧
    (predictConst (List.replicate 50 c0) none).volatility.isVolatile = false ∧
    (generateSignal predictConst "s" "frxEURUSD" 60 (List.replicate 50 c0) none 0 none 0).pUp +
      (generateSignal predictConst "s" "frxEURUSD" 60 (List.replicate 50 c0) none 0 none 0).pDown = 1 ∧
    (generateSignal predictConst "s" "frxEURUSD" 60 (List.replicate 50 c0) none 0 none 0).confidence =
      jsRound (max (generateSignal predictConst "s" "frxEURUSD" 60 (List.replicate 50 c0) none 0 none 0).pUp
        (generateSignal predictConst "s" "frxEURUSD" 60 (List.replicate 50 c0) none 0 none 0).pDown * 100) :=
  have h1 : ¬ List.length (List.replicate 50 c0) < VOLATILITY_CONFIG.minCandlesForSignal := by
    norm_num [VOLATILITY_CONFIG]
  have h2 : (predictConst (List.replicate 50 c0) none).volatility.isVolatile = false := by
    norm_num [predictConst]
  have r := generateSignal_score_closure predictConst "s" "frxEURUSD" 60
    (List.replicate 50 c0) none 0 none 0
  ⟨h1, h2, r.1, (r.2 h1 h2).2⟩

/-! ### C3: decision rule and the confidence gate -/

lemma determineDirection_gate (p : ℚ) (c : ℤ)
    (h : determineDirection p c ≠ Direction.NO_TRADE) : 60 ≤ c := by
  by_cases hc : c < SIGNAL_CONFIG.minConfidence
  · simp [determineDirection, hc] at h
  · simpa [SIGNAL_CONFIG] using not_lt.mp hc

/-- C3: `determineDirection` is exactly the claimed conditional (so a tie
`pUp = 0.5` falls to the `PUT` arm whenever the confidence gate passes),
`minConfidence` defaults to 60, on the scored path the result's direction
is that conditional applied to the result's own confidence and `pUp`, and
on every path a non-`NO_TRADE` result has confidence at least 60. -/
theorem generateSignal_decision
    (predict : List Candle → Option Candle → Prediction)
    (sessionId symbol : String) (timeframe : ℤ) (closedCandles : List Candle)
    (formingCandle : Option Candle) (candleCloseTime : ℤ)
    (options : Option SessionOptions) (now : ℤ) :
    (∀ (p : ℚ) (c : ℤ), determineDirection p c =
        if c < SIGNAL_CONFIG.minConfidence then Direction.NO_TRADE
        else if p > 0.5 then Direction.CALL else Direction.PUT) ∧
    SIGNAL_CONFIG.minConfidence = 60 ∧
    (¬ closedCandles.length < VOLATILITY_CONFIG.minCandlesForSignal →
      (predict closedCandles formingCandle).volatility.isVolatile = false →
      (generateSignal predict sessionId symbol timeframe closedCandles formingCandle
          candleCloseTime options now).direction =
        (if (generateSignal predict sessionId symbol timeframe closedCandles formingCandle
              candleCloseTime options now).confidence < 60 then Direction.NO_TRADE
         else if (generateSignal predict sessionId symbol timeframe closedCandles formingCandle
              candleCloseTime options now).pUp > 0.5 then Direction.CALL
         else Direction.PUT)) ∧
    ((generateSignal predict sessionId symbol timeframe closedCandles formingCandle
        candleCloseTime options now).direction ≠ Direction.NO_TRADE →
      60 ≤ (generateSignal predict sessionId symbol timeframe closedCandles formingCandle
        candleCloseTime options now).confidence) := by
  refine ⟨fun p c => rfl, rfl, ?_, ?_⟩
  · intro h1 h2
    simp [generateSignal, h1, h2, determineDirection, SIGNAL_CONFIG]
  · intro hdir
    by_cases h1 : closedCandles.length < VOLATILITY_CONFIG.minCandlesForSignal
    · exact absurd (by simp [generateSignal, h1]) hdir
    · by_cases h2 : (predict closedCandles formingCandle).volatility.isVolatile
      · exact absurd (by simp [generateSignal, h1, h2]) hdir
      · simp only [generateSignal, if_neg h1, if_neg h2] at hdir ⊢
        exact determineDirection_gate _ _ hdir

/-- Witness for C3: the tie at passing confidence falls to `PUT`, the
scored-path conditional holds on a concrete run, and that run (a `PUT`
with confidence 100) satisfies the gate. -/
theorem generateSignal_decision_witness :
    determineDirection 0.5 70 = Direction.PUT ∧
    (60 : ℤ) ≤ (generateSignal predictConst "s" "frxEURUSD" 60 (List.replicate 50 c0)
      none 0 none 0).confidence := by
  have t := generateSignal_decision predictConst "s" "frxEURUSD" 60 (List.replicate 50 c0)
    none 0 none 0
  refine ⟨?_, ?_⟩
  · rw [t.1]
    norm_num [SIGNAL_CONFIG]
  · refine t.2.2.2 ?_
    norm_num [generateSignal, predictConst, collectVotes, addVote, addVotes, voteFromEMACross,
      voteFromSMATrend, voteFromMACD, voteFromRSI, voteFromStochastic, voteFromBollinger,
      voteFromSuperTrend, voteFromPSAR, voteFromADX, voteFromCCI, voteFromWilliamsR,
      voteFromHullMA, voteFromMeanReversion, voteFromPsychology, calculateScores,
      determineDirection, jsRound, emptyPsychology, VOLATILITY_CONFIG, SIGNAL_CONFIG]
    simp

/-! ### C6: vote filtering and weighting -/

/-- Spec-side formulation of the filtering & weighting stage: a vote is
kept exactly when its indicator name is enabled, and its weight is
scaled by the custom or default multiplier for that name. -/
def keepAndReweight (enabled : Option (List String)) (custom : Option (List (String × ℚ)))
    (v : Vote) : Option Vote :=
  if isIndicatorEnabled v.indicator enabled then
    some { v with weight := v.weight * getIndicatorWeight v.indicator custom }
  else none

/-- Spec-side formulation of the raw (pre-filter, pre-weight) vote
stream: the concatenated outputs of the fixed producer catalogue. -/
def rawVotes (indicators : IndicatorValues) (psychology : PsychologyAnalysis)
    (lastClose : ℚ) : List Vote :=
  (voteFromEMACross indicators.ema5 indicators.ema21 lastClose "ema_cross_5_21").toList ++
  (voteFromEMACross indicators.ema9 indicators.ema21 lastClose "ema_cross_9_21").toList ++
  (voteFromEMACross indicators.ema12 indicators.ema50 lastClose "ema_cross_12_50").toList ++
  (voteFromSMATrend indicators.sma20 lastClose "sma_trend_20").toList ++
  (voteFromSMATrend indicators.sma50 lastClose "sma_trend_50").toList ++
  (voteFromSMATrend indicators.sma200 lastClose "sma_trend_200").toList ++
  voteFromMACD indicators.macd ++
  voteFromRSI indicators.rsi14 ++
  voteFromStochastic indicators.stochastic ++
  voteFromBollinger indicators.bollingerBands lastClose ++
  (voteFromSuperTrend indicators.superTrend).toList ++
  (voteFromPSAR indicators.psar lastClose).toList ++
  (voteFromADX indicators.adx).toList ++
  (voteFromCCI indicators.cci).toList ++
  (voteFromWilliamsR indicators.williamsR).toList ++
  (voteFromHullMA indicators.hullMA lastClose).toList ++
  (voteFromMeanReversion indicators.meanReversionZ).toList ++
  voteFromPsychology psychology

lemma addVotes_eq (e : Option (List String)) (c : Option (List (String × ℚ)))
    (votes l : List Vote) :
    addVotes e c votes l = votes ++ l.filterMap (keepAndReweight e c) := by
  induction l generalizing votes with
  | nil => simp [addVotes]
  | cons v t ih =>
    simp only [addVotes, List.foldl_cons] at ih ⊢
    by_cases h : isIndicatorEnabled v.indicator e
    · simp [h, keepAndReweight, ih, List.filterMap_cons]
    · simp [h, keepAndReweight, ih, List.filterMap_cons]

lemma addVote_eq (e : Option (List String)) (c : Option (List (String × ℚ)))
    (votes : List Vote) (voteOpt : Option Vote) (name : String)
    (h : ∀ v, voteOpt = some v → v.indicator = name) :
    addVote e c votes voteOpt name = votes ++ voteOpt.toList.filterMap (keepAndReweight e c) := by
  cases voteOpt with
  | none => simp [addVote]
  | some v =>
    have hn := h v rfl
    subst hn
    by_cases he : isIndicatorEnabled v.indicator e
    · simp [addVote, keepAndReweight, he]
    · simp [addVote, keepAndReweight, he]

lemma voteFromEMACross_indicator (f s : Option ℚ) (lc : ℚ) (n : String) (v : Vote)
    (h : voteFromEMACross f s lc n = some v) : v.indicator = n := by
  rcases f with _ | f
  · simp [voteFromEMACross] at h
  rcases s with _ | s
  · simp [voteFromEMACross] at h
  simp only [voteFromEMACross] at h
  split at h <;> try split at h
  all_goals (injection h with h2; subst h2; rfl)

lemma voteFromSMATrend_indicator (sma : Option ℚ) (lc : ℚ) (n : String) (v : Vote)
    (h : voteFromSMATrend sma lc n = some v) : v.indicator = n := by
  rcases sma with _ | s
  · simp [voteFromSMATrend] at h
  simp only [voteFromSMATrend] at h
  split at h <;> try split at h
  all_goals (injection h with h2; subst h2; rfl)

lemma voteFromSuperTrend_indicator (st : Option SuperTrendValue) (v : Vote)
    (h : voteFromSuperTrend st = some v) : v.indicator = "supertrend_signal" := by
  rcases st with _ | ⟨val, dir⟩
  · simp [voteFromSuperTrend] at h
  rcases dir <;>
    (simp only [voteFromSuperTrend] at h; injection h with h2; subst h2; rfl)

lemma voteFromPSAR_indicator (p : Option ℚ) (lc : ℚ) (v : Vote)
    (h : voteFromPSAR p lc = some v) : v.indicator = "psar_signal" := by
  rcases p with _ | p
  · simp [voteFromPSAR] at h
  simp only [voteFromPSAR] at h
  split at h <;> (injection h with h2; subst h2; rfl)

lemma voteFromADX_indicator (a : Option ℚ) (v : Vote)
    (h : voteFromADX a = some v) : v.indicator = "adx_trend_strength" := by
  rcases a with _ | a
  · simp [voteFromADX] at h
  simp only [voteFromADX] at h
  split at h <;> (injection h with h2; subst h2; rfl)

lemma voteFromCCI_indicator (c : Option ℚ) (v : Vote)
    (h : voteFromCCI c = some v) : v.indicator = "cci_signal" := by
  rcases c with _ | c
  · simp [voteFromCCI] at h
  simp only [voteFromCCI] at h
  split at h <;> try split at h
  all_goals (injection h with h2; subst h2; rfl)

lemma voteFromWilliamsR_indicator (w : Option ℚ) (v : Vote)
    (h : voteFromWilliamsR w = some v) : v.indicator = "williams_r" := by
  rcases w with _ | w
  · simp [voteFromWilliamsR] at h
  simp only [voteFromWilliamsR] at h
  split at h <;> try split at h
  all_goals (injection h with h2; subst h2; rfl)

lemma voteFromHullMA_indicator (hm : Option ℚ) (lc : ℚ) (v : Vote)
    (h : voteFromHullMA hm lc = some v) : v.indicator = "hull_ma_trend" := by
  rcases hm with _ | hv
  · simp [voteFromHullMA] at h
  simp only [voteFromHullMA] at h
  split at h <;> (injection h with h2; subst h2; rfl)

lemma voteFromMeanReversion_indicator (z : Option ℚ) (v : Vote)
    (h : voteFromMeanReversion z = some v) : v.indicator = "mean_reversion" := by
  rcases z with _ | z
  · simp [voteFromMeanReversion] at h
  simp only [voteFromMeanReversion] at h
  split at h <;> try split at h
  all_goals first
    | exact Option.noConfusion h
    | (injection h with h2; subst h2; rfl)

/-- C6: `collectVotes` is exactly "filter each raw producer vote by its
indicator name, then scale its weight": a vote is kept iff its name is
enabled (membership in `options.enabledIndicators` when that whitelist
is present), and the kept vote's weight is the producer's base weight
times `customWeights[name]` when that entry exists, else times the
built-in default (e.g. `ema_cross_5_21 = 1.2`, `macd_signal = 1.4`,
`supertrend_signal = 1.5`). -/
theorem collectVotes_filter_and_weight (indicators : IndicatorValues)
    (psychology : PsychologyAnalysis) (lastClose : ℚ) (options : Option SessionOptions) :
    collectVotes indicators psychology lastClose options =
      (rawVotes indicators psychology lastClose).filterMap
        (keepAndReweight (options.bind fun o => o.enabledIndicators)
          (options.bind fun o => o.customWeights)) ∧
    (∀ (name : String) (l : List String),
      isIndicatorEnabled name (some l) = l.contains name) ∧
    (∀ (name : String) (w : ℚ) (rest : List (String × ℚ)),
      getIndicatorWeight name (some ((name, w) :: rest)) = w) ∧
    getIndicatorWeight "ema_cross_5_21" none = 1.2 ∧
    getIndicatorWeight "macd_signal" none = 1.4 ∧
    getIndicatorWeight "supertrend_signal" none = 1.5 := by
  refine ⟨?_, fun name l => rfl, ?_, ?_, ?_, ?_⟩
  · simp only [collectVotes]
    rw [addVote_eq _ _ _ _ _ (fun v hv => voteFromEMACross_indicator _ _ _ _ v hv),
      addVote_eq _ _ _ _ _ (fun v hv => voteFromEMACross_indicator _ _ _ _ v hv),
      addVote_eq _ _ _ _ _ (fun v hv => voteFromEMACross_indicator _ _ _ _ v hv),
      addVote_eq _ _ _ _ _ (fun v hv => voteFromSMATrend_indicator _ _ _ v hv),
      addVote_eq _ _ _ _ _ (fun v hv => voteFromSMATrend_indicator _ _ _ v hv),
      addVote_eq _ _ _ _ _ (fun v hv => voteFromSMATrend_indicator _ _ _ v hv),
      addVote_eq _ _ _ _ _ (fun v hv => voteFromSuperTrend_indicator _ v hv),
      addVote_eq _ _ _ _ _ (fun v hv => voteFromPSAR_indicator _ _ v hv),
      addVote_eq _ _ _ _ _ (fun v hv => voteFromADX_indicator _ v hv),
      addVote_eq _ _ _ _ _ (fun v hv => voteFromCCI_indicator _ v hv),
      addVote_eq _ _ _ _ _ (fun v hv => voteFromWilliamsR_indicator _ v hv),
      addVote_eq _ _ _ _ _ (fun v hv => voteFromHullMA_indicator _ _ v hv),
      addVote_eq _ _ _ _ _ (fun v hv => voteFromMeanReversion_indicator _ v hv)]
    simp only [addVotes_eq, rawVotes, List.filterMap_append, List.append_assoc,
      List.nil_append]
  · intro name w rest
    simp [getIndicatorWeight, List.lookup]
  · simp [getIndicatorWeight, getIndicatorWeight.defaultPart, DEFAULT_INDICATOR_WEIGHTS,
      List.find?]
    norm_num
  · simp [getIndicatorWeight, getIndicatorWeight.defaultPart, DEFAULT_INDICATOR_WEIGHTS,
      List.find?]
    norm_num
  · simp [getIndicatorWeight, getIndicatorWeight.defaultPart, DEFAULT_INDICATOR_WEIGHTS,
      List.find?]
    norm_num

/-! ### C7: psychology-derived votes -/

/-- A psychology analysis whose only pattern is neutral with strength
0.8; used to refute the "weight equals the pattern's strength" reading. -/
def psyNeutralPattern : PsychologyAnalysis :=
  { bodyRatio := 0
    upperWickRatio := 0
    lowerWickRatio := 0
    isDoji := true
    patterns := [⟨"Doji", .neutral, 0.8, "Indecision candle"⟩]
    bias := .neutral
    orderBlockProbability := 0
    fvgDetected := false }

/-- C7 counterexample: for a detected neutral pattern of strength 0.8 the
emitted vote's weight is 0.4 (`strength * 0.5`), not the pattern's
strength — the claim's "weight equal to the pattern's strength" fails. -/
theorem patternVote_weight_not_strength :
    (voteFromPsychology psyNeutralPattern).map Vote.weight = [0.4] ∧
    ¬ (voteFromPsychology psyNeutralPattern).map Vote.weight =
      (psyNeutralPattern.patterns.map CandlestickPattern.strength) := by
  constructor
  · norm_num [voteFromPsychology, psyNeutralPattern, patternVote]
  · norm_num [voteFromPsychology, psyNeutralPattern, patternVote]

/-- The direction the `order_block` vote takes from the bias. -/
def biasDirection (bias : Bias) : VoteDir :=
  match bias with
  | .bullish => .UP
  | .bearish => .DOWN
  | .neutral => .NEUTRAL

/-- Spec-side formulation of the psychology vote producer (as amended):
one vote per pattern — bullish ⇒ UP with weight = strength, bearish ⇒
DOWN with weight = strength, neutral ⇒ a `doji_pattern` NEUTRAL vote
with weight = strength·0.5 — then an `order_block` vote exactly when
`orderBlockProbability > 0.6`, an `fvg_signal` vote exactly when
`fvgDetected`, and a `wick_rejection` vote exactly when
`upperWickRatio > 0.6` (DOWN) resp. `lowerWickRatio > 0.6` (UP). -/
def specPsychologyVotes (psychology : PsychologyAnalysis) : List Vote :=
  psychology.patterns.map patternVote ++
  (if psychology.orderBlockProbability > 0.6 then
    [⟨"order_block", biasDirection psychology.bias, psychology.orderBlockProbability⟩]
   else []) ++
  (if psychology.fvgDetected then
    [⟨"fvg_signal", if psychology.bias = .bullish then .UP else .DOWN, 0.8⟩]
   else []) ++
  (if psychology.upperWickRatio > 0.6 then
    [⟨"wick_rejection", .DOWN, psychology.upperWickRatio⟩]
   else []) ++
  (if psychology.lowerWickRatio > 0.6 then
    [⟨"wick_rejection", .UP, psychology.lowerWickRatio⟩]
   else [])

/-- C7 (amended): `voteFromPsychology` is exactly the spec-side producer
`specPsychologyVotes`: one vote per detected pattern (bullish → UP at
weight = strength, bearish → DOWN at weight = strength, neutral → a
NEUTRAL `doji_pattern` vote at half strength), plus the conditional
`order_block`, `fvg_signal` and `wick_rejection` votes. -/
theorem voteFromPsychology_eq_spec (psychology : PsychologyAnalysis) :
    voteFromPsychology psychology = specPsychologyVotes psychology := by
  simp only [voteFromPsychology, specPsychologyVotes, biasDirection]
  by_cases h1 : psychology.orderBlockProbability > 0.6 <;>
    by_cases h2 : psychology.fvgDetected <;>
      by_cases h3 : psychology.upperWickRatio > 0.6 <;>
        by_cases h4 : psychology.lowerWickRatio > 0.6 <;>
          rcases hb : psychology.bias <;>
            simp [h1, h2, h3, h4, hb]

/-! ### C5: at most one pre-close signal per forming-candle start -/

lemma runFirings_cons_fresh (t : ℤ) (ts : List ℤ) :
    runFirings ⟨none⟩ (t :: ts) = t :: runFirings ⟨some t⟩ ts := by
  simp [runFirings, fireStep]

/-- After any firing, the recorded timestamp is the start just
processed; over a nondecreasing trace, the emitted starts are strictly
increasing. -/
lemma runFirings_chain (ts : List ℤ) :
    ∀ t0 : ℤ, List.Chain (· ≤ ·) t0 ts →
      List.Chain' (· < ·) (t0 :: runFirings ⟨some t0⟩ ts) := by
  induction ts with
  | nil => intro t0 _; simp [runFirings]
  | cons t ts ih =>
    intro t0 hc
    rcases (List.chain_cons.mp hc) with ⟨h1, h2⟩
    by_cases he : t0 = t
    · subst he
      have : runFirings ⟨some t0⟩ (t0 :: ts) = runFirings ⟨some t0⟩ ts := by
        simp [runFirings, fireStep]
      rw [this]
      exact ih t0 h2
    · have : runFirings ⟨some t0⟩ (t :: ts) = t :: runFirings ⟨some t⟩ ts := by
        simp [runFirings, fireStep, he]
      rw [this]
      exact List.Chain'.cons (lt_of_le_of_ne h1 he) (ih t h2)

/-- C5: a pre-close firing emits iff `lastSignalCandleTimestamp` differs
from the forming candle's start; when it emits it records that start,
and when it does not the state is unchanged.  Consequently (the forming
candle's start being nondecreasing from firing to firing, candle buckets
only move forward), a session starting with an unset
`lastSignalCandleTimestamp` emits at most one pre-close signal per
distinct forming-candle start. -/
theorem preCloseSignal_dedup :
    (∀ (s : SchedState) (t : ℤ),
      ((fireStep s t).2 = true ↔ s.lastSignalCandleTimestamp ≠ some t) ∧
      ((fireStep s t).2 = true → (fireStep s t).1.lastSignalCandleTimestamp = some t) ∧
      ((fireStep s t).2 = false → (fireStep s t).1 = s)) ∧
    (∀ starts : List ℤ, List.Chain' (· ≤ ·) starts →
      ∀ t : ℤ, (runFirings ⟨none⟩ starts).count t ≤ 1) := by
  constructor
  · intro s t
    refine ⟨?_, ?_, ?_⟩
    · by_cases h : s.lastSignalCandleTimestamp = some t <;> simp [fireStep, h]
    · by_cases h : s.lastSignalCandleTimestamp = some t <;> simp [fireStep, h]
    · by_cases h : s.lastSignalCandleTimestamp = some t <;> simp [fireStep, h]
  · intro starts hc t
    rcases starts with _ | ⟨t0, ts⟩
    · simp [runFirings]
    · rw [runFirings_cons_fresh]
      have hchain : List.Chain' (· < ·) (t0 :: runFirings ⟨some t0⟩ ts) :=
      runFirings_chain ts t0 hc
      have hnd : (t0 :: runFirings ⟨some t0⟩ ts).Nodup :=
        (List.chain'_iff_pairwise.mp hchain).imp (fun hab => ne_of_lt hab)
      exact List.nodup_iff_count_le_one.mp hnd t

/-- Witness for C5: the trace start, same start again (late re-arm), new
start — two emissions, and each distinct start emitted once. -/
theorem preCloseSignal_dedup_witness :
    (fireStep ⟨none⟩ 120).2 = true ∧
    (fireStep ⟨some 120⟩ 120).2 = false ∧
    List.Chain' (· ≤ ·) ([120, 120, 180] : List ℤ) ∧
    (runFirings ⟨none⟩ ([120, 120, 180] : List ℤ)).count 120 ≤ 1 ∧
    (runFirings ⟨none⟩ ([120, 120, 180] : List ℤ)).count 180 ≤ 1 := by
  have t := preCloseSignal_dedup
  have hc : List.Chain' (· ≤ ·) ([120, 120, 180] : List ℤ) := by
    simp [List.chain'_cons, List.chain'_singleton]
  refine ⟨?_, ?_, hc, t.2 [120, 120, 180] hc 120, t.2 [120, 120, 180] hc 180⟩
  · exact (t.1 ⟨none⟩ 120).1.mpr (by simp)
  · by_contra hne
    have := (t.1 ⟨some 120⟩ 120).1.mp (by simpa using hne)
    simp at this

/-! ### C8: timeframe validation at `startSession` -/

/-- The request body of `POST /api/startSession` (fields are absent or
present; JS truthiness makes `""` and `0` count as missing). -/
structure StartSessionBody where
  session_id : Option String := none
  chat_id : Option ℤ := none
  asset : Option String := none
  timeframe : Option ℤ := none
deriving DecidableEq

def isFalsyStr : Option String → Bool
  | none => true
  | some s => s == ""

def isFalsyInt : Option ℤ → Bool
  | none => true
  | some n => n == 0

/-- The `/api/startSession` route handler's validation and call into the
session manager: missing-field check, asset-catalogue check, then
`startSession`.  No timeframe check is performed anywhere. -/
def apiStartSession (st : ManagerState) (body : StartSessionBody) (now : ℤ) :
    Except String (ManagerState × Session) :=
  if isFalsyStr body.session_id || isFalsyInt body.chat_id ||
      isFalsyStr body.asset || isFalsyInt body.timeframe then
    .error "Missing required fields"
  else
    let assetId := body.asset.getD ""
    match getAssetById assetId with
    | none => .error "Invalid asset"
    | some _ =>
      startSession st (body.session_id.getD "") (body.chat_id.getD 0) assetId
        (body.timeframe.getD 0) now

/-- C8 counterexample: a 61-second timeframe is not in `TIMEFRAMES`, yet
both `startSession` and the HTTP route accept it for a fresh id — the
claimed rejection does not exist. -/
theorem startSession_accepts_unsupported_timeframe :
    (startSession ⟨[]⟩ "s1" 7 "frxEURUSD" 61 0).isOk = true ∧
    (apiStartSession ⟨[]⟩ ⟨some "s1", some 7, some "frxEURUSD", some 61⟩ 0).isOk = true ∧
    TIMEFRAMES.all (fun tf => tf.value ≠ 61) = true := by
  refine ⟨?_, ?_, ?_⟩
  · rfl
  · rfl
  · decide

/-- C8 (amended): `startSession` rejects exactly the duplicate session
ids; the timeframe (like every other argument) is never validated, so
acceptance is independent of whether it is one of the supported values. -/
theorem startSession_rejects_only_duplicates (st : ManagerState) (sessionId : String)
    (chatId : ℤ) (symbol : String) (timeframe now : ℤ) :
    (startSession st sessionId chatId symbol timeframe now).isOk = true ↔
      st.sessions.lookup sessionId = none := by
  by_cases h : (st.sessions.lookup sessionId).isSome
  · have hne : st.sessions.lookup sessionId ≠ none := Option.isSome_iff_ne_none.mp h
    simp only [startSession, if_pos h]
    simp [Except.isOk, Except.toBool, hne]
  · have hnone : st.sessions.lookup sessionId = none := Option.not_isSome_iff_eq_none.mp h
    simp only [startSession, if_neg h]
    simp [Except.isOk, Except.toBool, hnone]

/-- Witness for C8 (amended): on the empty manager state a fresh id is
accepted (with the unsupported timeframe 61), and a duplicate id is
rejected. -/
theorem startSession_rejects_only_duplicates_witness :
    (startSession ⟨[]⟩ "s1" 7 "frxEURUSD" 61 0).isOk = true ∧
    (startSession ⟨[("s1", ⟨"s1", 7, "frxEURUSD", 61, .active, 0⟩)]⟩
      "s1" 7 "frxEURUSD" 61 5).isOk = false := by
  constructor
  · exact (startSession_rejects_only_duplicates ⟨[]⟩ "s1" 7 "frxEURUSD" 61 0).mpr rfl
  · have := (startSession_rejects_only_duplicates
      ⟨[("s1", ⟨"s1", 7, "frxEURUSD", 61, .active, 0⟩)]⟩ "s1" 7 "frxEURUSD" 61 5)
    rcases hv : (startSession ⟨[("s1", ⟨"s1", 7, "frxEURUSD", 61, .active, 0⟩)]⟩
      "s1" 7 "frxEURUSD" 61 5).isOk
    · rfl
    · have hnone := this.mp hv
      simp [List.lookup] at hnone

/-! ### C9: `stopSession` does not destroy the session record -/

lemma lookup_map_update (l : List (String × Session)) (sessionId : String)
    (f : Session → Session) :
    (l.map (fun p => if p.1 = sessionId then (p.1, f p.2) else p)).lookup sessionId =
      (l.lookup sessionId).map f := by
  induction l with
  | nil => simp
  | cons p t ih =>
    simp only [List.map_cons]
    by_cases h : p.1 = sessionId
    · rw [if_pos h]
      have hb : (sessionId == p.1) = true := beq_iff_eq.mpr h.symm
      simp [List.lookup, hb]
    · rw [if_neg h]
      have hb : (sessionId == p.1) = false := beq_eq_false_iff_ne.mpr (fun he => h he.symm)
      simp [List.lookup, hb, ih]

/-- C9 counterexample: start a session, stop it; the record is still in
the manager's map (with `status = stopped`) and a `startSession` with
the same id is rejected as already existing — the claim's "record is
destroyed / restart is not rejected" fails. -/
theorem stopSession_then_restart_rejected :
    startSession ⟨[]⟩ "s1" 7 "frxEURUSD" 60 0 =
      .ok (⟨[("s1", ⟨"s1", 7, "frxEURUSD", 60, .active, 0⟩)]⟩,
        ⟨"s1", 7, "frxEURUSD", 60, .active, 0⟩) ∧
    ((stopSession ⟨[("s1", ⟨"s1", 7, "frxEURUSD", 60, .active, 0⟩)]⟩ "s1").sessions.lookup
      "s1").isSome = true ∧
    (startSession (stopSession ⟨[("s1", ⟨"s1", 7, "frxEURUSD", 60, .active, 0⟩)]⟩ "s1")
      "s1" 7 "frxEURUSD" 60 5).isOk = false := by
  refine ⟨rfl, rfl, rfl⟩

/-- C9 (amended): `stopSession` flips the stored session's status to
`stopped` but keeps the entry in the map, so a later `startSession` with
the same id always fails with "already exists" (entries are removed only
by the process-shutdown `cleanup`). -/
theorem stopSession_keeps_record (st : ManagerState) (sessionId : String) (s : Session)
    (h : st.sessions.lookup sessionId = some s) :
    (stopSession st sessionId).sessions.lookup sessionId =
      some { s with status := SessionStatus.stopped } ∧
    ∀ (chatId : ℤ) (symbol : String) (timeframe now : ℤ),
      (startSession (stopSession st sessionId) sessionId chatId symbol timeframe now).isOk
        = false := by
  have hl : (stopSession st sessionId).sessions.lookup sessionId =
      some { s with status := SessionStatus.stopped } := by
    simp only [stopSession, h]
    rw [lookup_map_update st.sessions sessionId
      (fun s => { s with status := SessionStatus.stopped }), h]
    rfl
  refine ⟨hl, fun chatId symbol timeframe now => ?_⟩
  have hs : ((stopSession st sessionId).sessions.lookup sessionId).isSome = true := by
    rw [hl]; rfl
  simp only [startSession, if_pos hs]
  rfl

/-- Witness for C9 (amended): the concrete one-session state. -/
theorem stopSession_keeps_record_witness :
    ((stopSession ⟨[("s1", ⟨"s1", 7, "frxEURUSD", 60, .active, 0⟩)]⟩ "s1").sessions.lookup
      "s1") = some ⟨"s1", 7, "frxEURUSD", 60, .stopped, 0⟩ ∧
    (startSession (stopSession ⟨[("s1", ⟨"s1", 7, "frxEURUSD", 60, .active, 0⟩)]⟩ "s1")
      "s1" 9 "R_10" 300 5).isOk = false :=
  have r := stopSession_keeps_record ⟨[("s1", ⟨"s1", 7, "frxEURUSD", 60, .active, 0⟩)]⟩
    "s1" ⟨"s1", 7, "frxEURUSD", 60, .active, 0⟩ (by rfl)
  ⟨r.1, r.2 9 "R_10" 300 5⟩
